import Mathlib

/-
Verification of the TrackRealID appointment-tracker core against its
natural-language specification.

Shallow embedding of:
- `AppointmentData` / `AppointmentStore.update` (src/models/appointment.js)
- `App.runCheck` (src/app.js)
- `Scraper._extractAppointmentCount` / `Scraper._calculateBackoff`
  (src/services/scraper.js)
- `Notifier.sendNotification` / `Notifier._calculateBackoff`
  (src/services/notifier.js)
- the relevant parts of the configuration (src/utils/config.js)

Conventions of the embedding:
- JavaScript strings are Lean `String`s; all text processing is done on the
  underlying `List Char` with executable helper functions so that concrete
  instances evaluate inside the kernel.
- `new Date()` timestamps are an abstract `Nat` clock value threaded into the
  operations that read the clock.
- File-system persistence (`AppointmentStore.save`) is modelled as copying the
  in-memory state into a `stored` snapshot field.
- Network and SMTP delivery are modelled by oracles: a fetch result is the
  integer the scraper pipeline produced (`-1` for a failed fetch/parse), an
  SMTP attempt outcome is a `Bool` drawn from an oracle indexed by attempt.
-/

namespace TrackRealID

/-! ### Character-list helpers

Executable counterparts of the JavaScript string operations used by the
tracker: `String.prototype.trim`, `String.prototype.includes`, the regex
`/(\d+)/` (first run of digits) and the regex
`/\d+\s*Appointments?\s*Available/i` (tested, case-insensitive). -/

/-- JavaScript `s.trim()`: strip leading and trailing whitespace. -/
def trimCL (cs : List Char) : List Char :=
  ((cs.dropWhile Char.isWhitespace).reverse.dropWhile Char.isWhitespace).reverse

/-- Whether `pat` occurs at the start of `cs`. -/
def startsWith : List Char → List Char → Bool
  | [], _ => true
  | _ :: _, [] => false
  | p :: ps, c :: cs => p == c && startsWith ps cs

/-- JavaScript `hay.includes(needle)`: substring containment. -/
def containsCL (hay needle : List Char) : Bool :=
  hay.tails.any (fun t => startsWith needle t)

/-- Consume a literal (given in lowercase) case-insensitively; return the rest. -/
def dropLit : List Char → List Char → Option (List Char)
  | [], rest => some rest
  | _ :: _, [] => none
  | l :: ls, c :: cs => if l == c.toLower then dropLit ls cs else none

/-- Consume `\s*`. -/
def dropWS (cs : List Char) : List Char := cs.dropWhile Char.isWhitespace

/-- Consume `\d+` (at least one digit, maximal munch). -/
def dropDigits1 : List Char → Option (List Char)
  | [] => none
  | c :: cs => if c.isDigit then some (cs.dropWhile Char.isDigit) else none

/-- Match `/\d+\s*Appointments?\s*Available/i` anchored at the head of `cs`.
The maximal-munch sub-steps agree with the backtracking regex here: each
literal starts with a character that is neither a digit nor whitespace, and
when an `s` follows `appointment` the variant that skips it cannot match. -/
def apptAvailAt (cs : List Char) : Bool :=
  match dropDigits1 cs with
  | none => false
  | some r1 =>
    match dropLit "appointment".data (dropWS r1) with
    | none => false
    | some r2 =>
      let r3 := match r2 with
        | c :: rest => if c.toLower == 's' then rest else c :: rest
        | [] => []
      (dropLit "available".data (dropWS r3)).isSome

/-- JavaScript `/\d+\s*Appointments?\s*Available/i.test(s)`: match anywhere. -/
def apptAvailMatch (cs : List Char) : Bool := cs.tails.any apptAvailAt

/-- The first maximal run of digits in `cs`, as in `s.match(/(\d+)/)`. -/
def firstDigitRun : List Char → Option (List Char)
  | [] => none
  | c :: cs => if c.isDigit then some (c :: cs.takeWhile Char.isDigit) else firstDigitRun cs

/-- Decimal value of a digit run, as in `parseInt(match[0], 10)`. -/
def digitsToNat (cs : List Char) : Nat :=
  cs.foldl (fun a c => a * 10 + (c.toNat - '0'.toNat)) 0

/-- First integer substring of `cs` (`match(/(\d+)/)` + `parseInt`), if any. -/
def firstInteger (cs : List Char) : Option Nat :=
  (firstDigitRun cs).map digitsToNat

/-! ### Data model (src/models/appointment.js) -/

/-- The two monitored targets. `AppointmentStore` keys its state by the
strings `'regular'` and `'mobile'`; this enumerates the valid keys. -/
inductive SiteType where
  | regular
  | mobile
deriving DecidableEq, Repr

/-- The string key of a target, as used throughout the source. -/
def SiteType.toType : SiteType → String
  | .regular => "regular"
  | .mobile => "mobile"

/-- One observation record (`class AppointmentData`). -/
structure AppointmentData where
  id : String
  type : String
  count : Int
  timestamp : Nat
  location : String
deriving DecidableEq, Repr

/-- The `AppointmentData` constructor as invoked from `update`:
`new AppointmentData({ type, count, timestamp: new Date() })`.
`id` defaults to `type-Date.now()` and `location` from the type; the JS
`count || 0` is the identity on integers (`0 || 0 === 0`). -/
def AppointmentData.make (now : Nat) (t : SiteType) (count : Int) : AppointmentData :=
  { id := t.toType ++ "-" ++ toString now
    type := t.toType
    count := count
    timestamp := now
    location := if t = .regular then "Regular DMV" else "Mobile Unit" }

/-- In-memory state of `class AppointmentStore` plus its persisted snapshot.
`stored` models the contents of `data/appointments.json`: `save()` writes the
full current+history state for both targets in one `writeFileSync`. -/
structure AppointmentStore where
  currentRegular : Option AppointmentData
  currentMobile : Option AppointmentData
  historyRegular : List AppointmentData
  historyMobile : List AppointmentData
  maxHistory : Nat
  stored : Option (Option AppointmentData × Option AppointmentData ×
                   List AppointmentData × List AppointmentData)
deriving DecidableEq, Repr

/-- Lookup `this.current[type]`. -/
def AppointmentStore.getCurrent (s : AppointmentStore) (t : SiteType) : Option AppointmentData :=
  match t with
  | .regular => s.currentRegular
  | .mobile => s.currentMobile

/-- Lookup `this.history[type]` (newest first). -/
def AppointmentStore.getHistoryT (s : AppointmentStore) (t : SiteType) : List AppointmentData :=
  match t with
  | .regular => s.historyRegular
  | .mobile => s.historyMobile

/-- Write `this.current[type] = v`. -/
def AppointmentStore.setCurrent (s : AppointmentStore) (t : SiteType)
    (v : Option AppointmentData) : AppointmentStore :=
  match t with
  | .regular => { s with currentRegular := v }
  | .mobile => { s with currentMobile := v }

/-- Write `this.history[type] = h`. -/
def AppointmentStore.setHistory (s : AppointmentStore) (t : SiteType)
    (h : List AppointmentData) : AppointmentStore :=
  match t with
  | .regular => { s with historyRegular := h }
  | .mobile => { s with historyMobile := h }

/-- Model of `save()`: snapshot current state and history for both targets. -/
def AppointmentStore.save (s : AppointmentStore) : AppointmentStore :=
  { s with stored := some (s.currentRegular, s.currentMobile,
                           s.historyRegular, s.historyMobile) }

/-- The object returned by `AppointmentStore.update`. -/
structure UpdateResult where
  type : String
  count : Int
  previousCount : Int
  hasChanged : Bool
  becameAvailable : Bool
  timestamp : Nat
deriving DecidableEq, Repr

/-- Body of `AppointmentStore.update` after the type-string validation, for a
valid target `t`. Mirrors src/models/appointment.js lines 157-196:
create `newData`; `hasChanged = !previousData || previousData.count !== count`;
if changed, append to history when `(!previousData || previousData.count === 0)
&& count > 0` (trimming to `maxHistory`), overwrite `current[type]`, and save;
finally return the transition record. `previousData?.count || 0` is `0` both
when `previousData` is null and when its count is `0`. -/
def AppointmentStore.updateCore (s : AppointmentStore) (now : Nat) (t : SiteType)
    (count : Int) : AppointmentStore × UpdateResult :=
  let newData := AppointmentData.make now t count
  let previousData := s.getCurrent t
  let hasChanged : Bool :=
    match previousData with
    | none => true
    | some d => d.count != count
  let prevZero : Bool :=
    match previousData with
    | none => true
    | some d => d.count == 0
  let s' :=
    if hasChanged then
      let s1 :=
        if prevZero && decide (count > 0) then
          let h := newData :: s.getHistoryT t
          let h := if h.length > s.maxHistory then h.take s.maxHistory else h
          s.setHistory t h
        else s
      (s1.setCurrent t (some newData)).save
    else s
  (s', { type := t.toType
         count := count
         previousCount := match previousData with | none => 0 | some d => d.count
         hasChanged := hasChanged
         becameAvailable := decide (count > 0) && prevZero
         timestamp := now })

/-- `AppointmentStore.update(type, count)`: rejects any type string other than
`'regular'` and `'mobile'` by throwing (`Except.error`) before touching any
state; otherwise runs the update body. -/
def AppointmentStore.update (s : AppointmentStore) (now : Nat) (ty : String)
    (count : Int) : Except String (AppointmentStore × UpdateResult) :=
  if ty ≠ "regular" ∧ ty ≠ "mobile" then
    .error ("Invalid appointment type: " ++ ty)
  else if ty = "regular" then
    .ok (s.updateCore now .regular count)
  else
    .ok (s.updateCore now .mobile count)

/-- The last known count of a target: `0` when no `CurrentState` exists. -/
def knownCount (s : AppointmentStore) (t : SiteType) : Int :=
  match s.getCurrent t with
  | none => 0
  | some d => d.count

/-- Whether both `CurrentState` records hold non-negative counts (the `-1`
sentinel is absent). -/
def currentNonneg (s : AppointmentStore) : Bool :=
  (match s.currentRegular with | none => true | some d => decide (0 ≤ d.count)) &&
  (match s.currentMobile with | none => true | some d => decide (0 ≤ d.count))

/-! ### Orchestrator (src/app.js `App.runCheck`)

Per target the cycle is: `count = await scraper.checkAppointments(type)`
(already `-1` on any fetch/parse failure, the scraper never throws here);
`if (count >= 0)` update the store and, `if (update.becameAvailable)`, call
`notifier.sendNotification(type, count)`. The returned `Bool` records whether
a notification send was attempted for that target in this cycle. -/

/-- One target's slice of `runCheck`, given the scraper result `fetched`.
The `.error` fallback is unreachable: `t.toType` is always a valid key. -/
def checkTarget (s : AppointmentStore) (now : Nat) (t : SiteType) (fetched : Int) :
    AppointmentStore × Bool :=
  if fetched ≥ 0 then
    match s.update now t.toType fetched with
    | .ok (s', res) => (s', res.becameAvailable)
    | .error _ => (s, false)
  else
    (s, false)

/-- Outcome of one `runCheck` cycle. -/
structure CheckOutcome where
  store : AppointmentStore
  notifiedRegular : Bool
  notifiedMobile : Bool
deriving DecidableEq, Repr

/-- One `runCheck` cycle: the regular target is processed first, then the
mobile target on the resulting store. -/
def runCheck (s : AppointmentStore) (now : Nat) (regularCount mobileCount : Int) :
    CheckOutcome :=
  let r := checkTarget s now .regular regularCount
  let m := checkTarget r.1 now .mobile mobileCount
  ⟨m.1, r.2, m.2⟩

/-- Input of one cycle: clock value and the two scraper results. -/
structure CycleInput where
  now : Nat
  regularCount : Int
  mobileCount : Int

/-- A sequence of `runCheck` cycles; returns the final store and the number of
notification attempts per target. -/
def runChecks : AppointmentStore → List CycleInput → AppointmentStore × Nat × Nat
  | s, [] => (s, 0, 0)
  | s, c :: rest =>
    let o := runCheck s c.now c.regularCount c.mobileCount
    let r := runChecks o.store rest
    (r.1, (if o.notifiedRegular then 1 else 0) + r.2.1,
          (if o.notifiedMobile then 1 else 0) + r.2.2)

/-- The scraper result for target `t` in a cycle input. -/
def targetFetch (t : SiteType) (c : CycleInput) : Int :=
  match t with
  | .regular => c.regularCount
  | .mobile => c.mobileCount

/-- The per-target notification-attempt count of a `runChecks` result. -/
def targetSends (t : SiteType) (r : AppointmentStore × Nat × Nat) : Nat :=
  match t with
  | .regular => r.2.1
  | .mobile => r.2.2

/-- A sequence of direct `update` calls (valid targets), as in the state-store
contract; each element carries the clock value, the target and the count. -/
def applyUpdates : AppointmentStore → List (Nat × SiteType × Int) → AppointmentStore
  | s, [] => s
  | s, (now, t, c) :: rest => applyUpdates (s.updateCore now t c).1 rest

/-- The store at first run: empty state, default `maxHistory` of 100,
nothing persisted yet. -/
def emptyStore : AppointmentStore :=
  { currentRegular := none
    currentMobile := none
    historyRegular := []
    historyMobile := []
    maxHistory := 100
    stored := none }

/-! ### Extractor (src/services/scraper.js `_extractAppointmentCount`)

The fetched markup is modelled as an element tree. cheerio's `$(sel)`
enumerates matching elements in document (pre-)order; `.text()` concatenates
the text of all descendants of all selected elements; `.parent()`,
`.find(sel)` and `.closest(sel)` navigate the tree. Documents are modelled
with an explicit root element (the `<html>` element), so every element
matched as a card title has a parent inside the tree; a title at the very
root (which cannot occur in real markup) is treated as having no count
element. -/

/-- An HTML node: an element with tag, class list, attributes and children,
or a text node. -/
inductive HNode where
  | elem (tag : String) (classes : List String) (attrs : List (String × String))
      (children : List HNode)
  | text (s : String)

mutual

/-- cheerio `.text()` of a single node: concatenated descendant text. -/
def HNode.textCL : HNode → List Char
  | .text s => s.data
  | .elem _ _ _ cs => HNode.textListCL cs

/-- Concatenated text of a list of nodes, in order. -/
def HNode.textListCL : List HNode → List Char
  | [] => []
  | n :: ns => HNode.textCL n ++ HNode.textListCL ns

end

mutual

/-- All elements of a subtree in document order, each paired with its
ancestor chain (innermost first). -/
def elemsWithAnc : HNode → List HNode → List (HNode × List HNode)
  | n@(.elem _ _ _ children), ancs => (n, ancs) :: elemsWithAncList children (n :: ancs)
  | .text _, _ => []

/-- `elemsWithAnc` over a list of siblings. -/
def elemsWithAncList : List HNode → List HNode → List (HNode × List HNode)
  | [], _ => []
  | n :: ns, ancs => elemsWithAnc n ancs ++ elemsWithAncList ns ancs

end

/-- A simple (single-compound) CSS selector: optional tag name, required
classes, optional `[attr="value"]` constraint. The universal selector `*` is
`⟨none, [], none⟩`. -/
structure SimpleSel where
  tag : Option String
  classes : List String
  attrEq : Option (String × String)
deriving DecidableEq, Repr

/-- Whether an element matches a simple selector (text nodes never match). -/
def matchesSimple (n : HNode) (q : SimpleSel) : Bool :=
  match n with
  | .text _ => false
  | .elem tag classes attrs _ =>
    (match q.tag with | none => true | some t => tag == t) &&
    q.classes.all (fun c => classes.contains c) &&
    (match q.attrEq with | none => true | some av => attrs.contains av)

/-- A selector as used by the strategies: either simple, or a descendant
combinator `anc desc` (e.g. `.card-body h3`). -/
inductive Sel where
  | simple (q : SimpleSel)
  | within (anc : SimpleSel) (q : SimpleSel)
deriving DecidableEq, Repr

/-- Whether an element (with its ancestor chain) matches a selector. -/
def matchesSel (n : HNode) (ancs : List HNode) : Sel → Bool
  | .simple q => matchesSimple n q
  | .within anc q => matchesSimple n q && ancs.any (fun a => matchesSimple a anc)

/-- cheerio `$(sel)` over the whole document. -/
def selectAll (root : HNode) (sel : Sel) : List (HNode × List HNode) :=
  (elemsWithAnc root []).filter (fun p => matchesSel p.1 p.2 sel)

/-- cheerio `el.find(q)`: proper descendants of `el` matching `q`. -/
def findIn (p : HNode × List HNode) (q : SimpleSel) : List (HNode × List HNode) :=
  match p.1 with
  | .elem _ _ _ children =>
    (elemsWithAncList children (p.1 :: p.2)).filter (fun d => matchesSimple d.1 q)
  | .text _ => []

/-- cheerio `el.parent()` within the modelled tree. -/
def parentOf (p : HNode × List HNode) : Option (HNode × List HNode) :=
  match p.2 with
  | a :: rest => some (a, rest)
  | [] => none

/-- cheerio `el.closest(q1, q2, ...)`: the element itself, or its nearest
ancestor, matching any of the alternatives. -/
def closestAny (qs : List SimpleSel) : HNode → List HNode → Option (HNode × List HNode)
  | n, ancs =>
    if qs.any (fun q => matchesSimple n q) then some (n, ancs)
    else
      match ancs with
      | [] => none
      | a :: rest => closestAny qs a rest

/-- One entry of `SELECTOR_STRATEGIES`. `titleText` is `none` for the
`Last Resort Strategy`, whose object literal has no `titleText` property:
the comparison `title === strategy.titleText` is then `title === undefined`,
which is false for every string. `countSels` lists the comma-separated
alternatives of `countSelector` (a singleton when there is no comma). -/
structure Strategy where
  name : String
  titleSel : Sel
  titleText : Option String
  countSels : List SimpleSel
deriving DecidableEq, Repr

/-- `SELECTOR_STRATEGIES.regular`. -/
def regularStrategies : List Strategy :=
  [ { name := "Primary Strategy"
      titleSel := .simple ⟨some "span", ["text-black", "text-uppercase", "cardButtonTitle"], none⟩
      titleText := some "REAL ID"
      countSels := [⟨some "span", ["text-black", "cardButtonCount"], none⟩] },
    { name := "Fallback Strategy"
      titleSel := .within ⟨none, ["card-body"], none⟩ ⟨some "h3", [], none⟩
      titleText := some "REAL ID"
      countSels := [⟨none, ["appointment-count"], none⟩, ⟨none, ["card-count"], none⟩] },
    { name := "Last Resort Strategy"
      titleSel := .simple ⟨none, [], some ("data-service", "real-id")⟩
      titleText := none
      countSels := [⟨none, ["count"], none⟩, ⟨none, ["number"], none⟩,
                    ⟨none, ["appointments"], none⟩] } ]

/-- `SELECTOR_STRATEGIES.mobile`. -/
def mobileStrategies : List Strategy :=
  [ { name := "Primary Strategy"
      titleSel := .simple ⟨some "span", ["text-black", "text-uppercase", "cardButtonTitle"], none⟩
      titleText := some "REAL ID - MOBILE"
      countSels := [⟨some "span", ["text-black", "cardButtonCount"], none⟩] },
    { name := "Fallback Strategy"
      titleSel := .within ⟨none, ["card-body"], none⟩ ⟨some "h3", [], none⟩
      titleText := some "REAL ID - MOBILE"
      countSels := [⟨none, ["appointment-count"], none⟩, ⟨none, ["card-count"], none⟩] },
    { name := "Last Resort Strategy"
      titleSel := .simple ⟨none, [], some ("data-service", "real-id-mobile")⟩
      titleText := none
      countSels := [⟨none, ["count"], none⟩, ⟨none, ["number"], none⟩,
                    ⟨none, ["appointments"], none⟩] } ]

/-- `SELECTOR_STRATEGIES[type]`. -/
def strategiesFor : SiteType → List Strategy
  | .regular => regularStrategies
  | .mobile => mobileStrategies

/-- The comma-split loop over `countSelector`: try each alternative with
`parent.find(...)` and keep the first non-empty result (the source breaks on
the first selector with matches; with no comma there is a single `find`). -/
def pickCountEls (parent : HNode × List HNode) : List SimpleSel → List (HNode × List HNode)
  | [] => []
  | [q] => findIn parent q
  | q :: qs =>
    let r := findIn parent q
    if r.isEmpty then pickCountEls parent qs else r

/-- Text of a selection, as in `countElement.text().trim()`: the texts of all
selected elements concatenated, then trimmed. -/
def countTextOf (els : List (HNode × List HNode)) : List Char :=
  trimCL (els.foldl (fun acc e => acc ++ HNode.textCL e.1) [])

/-- One iteration of the `$(strategy.titleSelector).each(...)` callback, on
accumulator `(found, count)`: when the element's trimmed text equals the
strategy's `titleText`, set `found` and, if a count element is located and an
integer parses from its text, overwrite `count`; otherwise leave `count`. -/
def stepTitle (st : Strategy) (acc : Bool × Nat) (el : HNode × List HNode) : Bool × Nat :=
  let title := trimCL (HNode.textCL el.1)
  let titleMatches :=
    match st.titleText with
    | some t => title == t.data
    | none => false
  if titleMatches then
    let countEls :=
      match parentOf el with
      | some p => pickCountEls p st.countSels
      | none => []
    if countEls.isEmpty then (true, acc.2)
    else
      match firstInteger (countTextOf countEls) with
      | some n => (true, n)
      | none => (true, acc.2)
  else acc

/-- One strategy pass: `found` starts false and `count` starts 0, then the
`each` loop runs over every element matched by the title selector. -/
def runStrategy (root : HNode) (st : Strategy) : Bool × Nat :=
  (selectAll root st.titleSel).foldl (stepTitle st) (false, 0)

/-- The strategy loop: the first strategy whose title is found wins and its
`count` (0 when nothing parsed) is returned; otherwise fall through. -/
def tryStrategies (root : HNode) : List Strategy → Option Nat
  | [] => none
  | st :: rest =>
    let r := runStrategy root st
    if r.1 then some r.2 else tryStrategies root rest

/-- First `some` produced by `f` over a list, in order. -/
def firstSome : List α → (α → Option β) → Option β
  | [], _ => none
  | a :: as, f =>
    match f a with
    | some b => some b
    | none => firstSome as f

/-- The card-container alternatives of `closest('.overlay-card, .cardButton, .card')`. -/
def cardSels : List SimpleSel :=
  [⟨none, ["overlay-card"], none⟩, ⟨none, ["cardButton"], none⟩, ⟨none, ["card"], none⟩]

/-- Inner body of the alternative extraction for one candidate card: among
the card's descendants whose trimmed text matches
`/\d+\s*Appointments?\s*Available/i`, take the first and parse its first
integer; `none` continues the outer loop. -/
def scanCard (card : HNode × List HNode) : Option Nat :=
  let countTexts :=
    (findIn card ⟨none, [], none⟩).filter (fun d => apptAvailMatch (trimCL (HNode.textCL d.1)))
  match countTexts with
  | [] => none
  | first :: _ => firstInteger (trimCL (HNode.textCL first.1))

/-- The generic fallback (`Trying alternative extraction method`): every
element whose trimmed text contains the search text is a candidate; for the
first candidate that sits in a card container and yields a count, return it. -/
def genericScan (root : HNode) (searchText : String) : Option Nat :=
  let realIdEls :=
    (elemsWithAnc root []).filter
      (fun p => containsCL (trimCL (HNode.textCL p.1)) searchText.data)
  firstSome realIdEls (fun p =>
    match closestAny cardSels p.1 p.2 with
    | none => none
    | some card => scanCard card)

/-- The search text of the alternative extraction for each target. -/
def searchTextFor : SiteType → String
  | .regular => "REAL ID"
  | .mobile => "REAL ID - MOBILE"

/-- Result of `_extractAppointmentCount`: the returned count (`-1` when all
strategies fail) and whether `_saveDebugHtml(html, type, 'parse-failed')`
was invoked. -/
structure ExtractOutcome where
  count : Int
  debugSaved : Bool
deriving DecidableEq, Repr

/-- `Scraper._extractAppointmentCount(html, type)`: the strategy loop, then
the generic scan, then the failure path (debug artifact + `-1`). -/
def extractAppointmentCount (root : HNode) (t : SiteType) : ExtractOutcome :=
  match tryStrategies root (strategiesFor t) with
  | some c => ⟨(c : Int), false⟩
  | none =>
    match genericScan root (searchTextFor t) with
    | some c => ⟨(c : Int), false⟩
    | none => ⟨-1, true⟩

/-! ### Notifier (src/services/notifier.js) and backoff

`Scraper._calculateBackoff` and `Notifier._calculateBackoff` are textually
identical; `Math.random()` is modelled by passing the drawn jitter value
(a rational in `[0, 1000)`) explicitly. SMTP delivery is modelled by an
oracle giving the outcome of each attempt (an attempt fails when either of
its two `sendMail` calls throws). -/

/-- `_calculateBackoff(attempt)` with the jitter `Math.random() * 1000`
passed in: `Math.min(2000 * Math.pow(2, attempt) + jitter, 60000)`. -/
def calculateBackoff (attempt : Nat) (jitter : ℚ) : ℚ :=
  min (2000 * 2 ^ attempt + jitter) 60000

/-- The notifier-relevant configuration (src/utils/config.js). All values are
strings after the loader applies defaults; the empty string is the JS falsy
case. `recipient` is `TRACKER_EMAIL_RECIPIENT`. -/
structure NotifierConfig where
  sender : String
  recipient : String
  password : String
  subject : String
  regularNotificationUrl : String
  mobileNotificationUrl : String
  maxRetries : Nat
deriving DecidableEq, Repr

/-- `config.hasValidEmailSettings()`: sender, recipient and password all
non-empty. `setupTransporter` creates the transporter exactly when this
holds, so it also decides whether `this.transporter` is set. -/
def NotifierConfig.hasValidEmailSettings (c : NotifierConfig) : Bool :=
  c.sender != "" && c.recipient != "" && c.password != ""

/-- `config.get('TRACKER_' + type.toUpperCase() + '_NOTIFICATION_URL')`. -/
def NotifierConfig.notificationUrl (c : NotifierConfig) : SiteType → String
  | .regular => c.regularNotificationUrl
  | .mobile => c.mobileNotificationUrl

/-- One outgoing email message (the fields of the nodemailer options that the
claims concern; the HTML body of the second message renders the same count
and booking URL through the template and is omitted here). -/
structure Mail where
  fromAddr : String
  toAddr : String
  subject : String
  body : String
deriving DecidableEq, Repr

/-- The two messages built inside each attempt of `sendNotification`:
an SMS-gateway message to the hardcoded `7329957580@vtext.com` with
`count + " REAL ID appt: " + notificationUrl`, then a detailed email to the
hardcoded `adamb.capuana@gmail.com` with
`notificationUrl + " - " + count + " REAL ID appointment(s) available at " +
siteName + "!"`. The configured `TRACKER_EMAIL_RECIPIENT` is not consulted. -/
def notificationMails (c : NotifierConfig) (t : SiteType) (count : Int) : List Mail :=
  let siteName := if t = .regular then "Regular DMV" else "Mobile Unit"
  let url := c.notificationUrl t
  let sms : Mail :=
    { fromAddr := c.sender
      toAddr := "7329957580@vtext.com"
      subject := "REAL ID Appt"
      body := toString count ++ " REAL ID appt: " ++ url }
  let email : Mail :=
    { fromAddr := c.sender
      toAddr := "adamb.capuana@gmail.com"
      subject := c.subject
      body := url ++ " - " ++ toString count ++
              " REAL ID appointment(s) available at " ++ siteName ++ "!" }
  [sms, email]

/-- The retry loop of `sendNotification`: `retries` starts at 0 and the loop
runs while `retries <= maxRetries`, so with fuel `maxRetries + 1` the attempts
are numbered `0, 1, ..., maxRetries`; the first successful attempt returns
true, and exhausting the fuel returns false. -/
def sendAttempts (attemptOk : Nat → Bool) : Nat → Nat → Bool
  | 0, _ => false
  | fuel + 1, i => if attemptOk i then true else sendAttempts attemptOk fuel (i + 1)

/-- `Notifier.sendNotification(type, count)`: returns false immediately when
the transporter is not configured or the target's notification URL is falsy;
otherwise runs the retry loop, building the same two messages on each
attempt. The source catches every delivery error inside the loop, so the
function always resolves to a boolean: that totality is inherent in this
model. -/
def sendNotificationModel (c : NotifierConfig) (t : SiteType) (count : Int)
    (attemptOk : Nat → Bool) : Bool × List Mail :=
  if c.hasValidEmailSettings = false then (false, [])
  else if c.notificationUrl t = "" then (false, [])
  else (sendAttempts attemptOk (c.maxRetries + 1) 0, notificationMails c t count)

/-! ### Concrete instances used by counterexamples and witnesses -/

/-- A store whose regular target was last seen with 5 appointments. -/
def storeAtFive : AppointmentStore :=
  { emptyStore with currentRegular := some (AppointmentData.make 1 .regular 5) }

/-- A store whose regular target was last seen with 7 appointments
(observed at clock value 5). -/
def storeAtSeven : AppointmentStore :=
  { emptyStore with currentRegular := some (AppointmentData.make 5 .regular 7) }

/-- A fully configured notifier, with `TRACKER_EMAIL_RECIPIENT` set to
`user@example.com`. -/
def cfgExample : NotifierConfig :=
  { sender := "tracker@example.com"
    recipient := "user@example.com"
    password := "pw"
    subject := "REAL ID Appointment Available!"
    regularNotificationUrl := "https://telegov.njportal.com/njmvc/AppointmentWizard/12"
    mobileNotificationUrl := "https://telegov.njportal.com/njmvcmobileunit/AppointmentWizard"
    maxRetries := 3 }

/-- A notifier configuration without credentials (no transporter). -/
def cfgNoCreds : NotifierConfig :=
  { cfgExample with sender := "", recipient := "", password := "" }

/-- Markup on which the primary strategy finds the `REAL ID` card title but
the count element's text (`N/A`) contains no integer. -/
def unparsableDoc : HNode :=
  .elem "html" [] [] [
    .elem "div" [] [] [
      .elem "span" ["text-black", "text-uppercase", "cardButtonTitle"] [] [.text "REAL ID"],
      .elem "span" ["text-black", "cardButtonCount"] [] [.text "N/A"]]]

/-! ### Helper lemmas about the store operations -/

theorem getCurrent_save (s : AppointmentStore) (t : SiteType) :
    (s.save).getCurrent t = s.getCurrent t := by
  cases t <;> rfl

theorem getCurrent_setCurrent_self (s : AppointmentStore) (t : SiteType)
    (v : Option AppointmentData) : (s.setCurrent t v).getCurrent t = v := by
  cases t <;> rfl

theorem getCurrent_setCurrent_other (s : AppointmentStore) (t u : SiteType)
    (v : Option AppointmentData) (h : t ≠ u) :
    (s.setCurrent u v).getCurrent t = s.getCurrent t := by
  cases t <;> cases u <;> first | rfl | exact absurd rfl h

theorem getCurrent_setHistory (s : AppointmentStore) (t u : SiteType)
    (h : List AppointmentData) : (s.setHistory u h).getCurrent t = s.getCurrent t := by
  cases t <;> cases u <;> rfl

theorem getHistoryT_save (s : AppointmentStore) (t : SiteType) :
    (s.save).getHistoryT t = s.getHistoryT t := by
  cases t <;> rfl

theorem getHistoryT_setCurrent (s : AppointmentStore) (t u : SiteType)
    (v : Option AppointmentData) : (s.setCurrent u v).getHistoryT t = s.getHistoryT t := by
  cases t <;> cases u <;> rfl

theorem getHistoryT_setHistory_self (s : AppointmentStore) (t : SiteType)
    (h : List AppointmentData) : (s.setHistory t h).getHistoryT t = h := by
  cases t <;> rfl

theorem getHistoryT_setHistory_other (s : AppointmentStore) (t u : SiteType)
    (h : List AppointmentData) (hne : t ≠ u) :
    (s.setHistory u h).getHistoryT t = s.getHistoryT t := by
  cases t <;> cases u <;> first | rfl | exact absurd rfl hne

theorem maxHistory_save (s : AppointmentStore) : (s.save).maxHistory = s.maxHistory := rfl

theorem maxHistory_setCurrent (s : AppointmentStore) (t : SiteType)
    (v : Option AppointmentData) : (s.setCurrent t v).maxHistory = s.maxHistory := by
  cases t <;> rfl

theorem maxHistory_setHistory (s : AppointmentStore) (t : SiteType)
    (h : List AppointmentData) : (s.setHistory t h).maxHistory = s.maxHistory := by
  cases t <;> rfl

theorem update_valid (s : AppointmentStore) (now : Nat) (t : SiteType) (c : Int) :
    s.update now t.toType c = .ok (s.updateCore now t c) := by
  cases t <;> rfl

theorem updateCore_hasChanged (s : AppointmentStore) (now : Nat) (t : SiteType) (c : Int) :
    (s.updateCore now t c).2.hasChanged =
      (match s.getCurrent t with
       | none => true
       | some d => d.count != c) := rfl

theorem updateCore_becameAvailable (s : AppointmentStore) (now : Nat) (t : SiteType)
    (c : Int) :
    (s.updateCore now t c).2.becameAvailable = (decide (0 < c) && decide (knownCount s t = 0)) := by
  show (decide (c > 0) &&
        (match s.getCurrent t with | none => true | some d => d.count == 0)) = _
  unfold knownCount
  cases h : s.getCurrent t with
  | none => simp
  | some d =>
    rw [Bool.eq_iff_iff]
    simp [beq_iff_eq]

theorem updateCore_previousCount (s : AppointmentStore) (now : Nat) (t : SiteType)
    (c : Int) :
    (s.updateCore now t c).2.previousCount = knownCount s t := by
  show (match s.getCurrent t with | none => (0 : Int) | some d => d.count) = _
  unfold knownCount
  rfl

theorem updateCore_store_cases (s : AppointmentStore) (now : Nat) (t : SiteType) (c : Int) :
    ((s.updateCore now t c).2.hasChanged = true
      ∧ ((s.updateCore now t c).1).getCurrent t = some (AppointmentData.make now t c))
    ∨ ((s.updateCore now t c).2.hasChanged = false ∧ (s.updateCore now t c).1 = s) := by
  rw [updateCore_hasChanged]
  show _ ∨ (_ ∧ (if (match s.getCurrent t with | none => true | some d => d.count != c)
                 then _ else s) = s)
  by_cases h : (match s.getCurrent t with | none => true | some d => d.count != c) = true
  · left
    refine ⟨h, ?_⟩
    show ((if _ then _ else s).getCurrent t) = _
    rw [if_pos h, getCurrent_save, getCurrent_setCurrent_self]
  · right
    rw [Bool.not_eq_true] at h
    exact ⟨h, by rw [if_neg (by simp [h])]⟩

theorem getCurrent_updateCore_other (s : AppointmentStore) (now : Nat) (t u : SiteType)
    (c : Int) (h : t ≠ u) :
    ((s.updateCore now u c).1).getCurrent t = s.getCurrent t := by
  show ((if _ then ((if _ then s.setHistory u _ else s).setCurrent u _).save else s).getCurrent t) = _
  split
  · rw [getCurrent_save, getCurrent_setCurrent_other _ _ _ _ h]
    split
    · rw [getCurrent_setHistory]
    · rfl
  · rfl

theorem getHistoryT_updateCore_other (s : AppointmentStore) (now : Nat) (t u : SiteType)
    (c : Int) (h : t ≠ u) :
    ((s.updateCore now u c).1).getHistoryT t = s.getHistoryT t := by
  show ((if _ then ((if _ then s.setHistory u _ else s).setCurrent u _).save else s).getHistoryT t) = _
  split
  · rw [getHistoryT_save, getHistoryT_setCurrent]
    split
    · rw [getHistoryT_setHistory_other _ _ _ _ h]
    · rfl
  · rfl

theorem maxHistory_updateCore (s : AppointmentStore) (now : Nat) (t : SiteType) (c : Int) :
    ((s.updateCore now t c).1).maxHistory = s.maxHistory := by
  show ((if _ then ((if _ then s.setHistory t _ else s).setCurrent t _).save else s).maxHistory) = _
  split
  · rw [maxHistory_save, maxHistory_setCurrent]
    split
    · rw [maxHistory_setHistory]
    · rfl
  · rfl

theorem updateCore_fst_eq (s : AppointmentStore) (now : Nat) (t : SiteType) (c : Int) :
    (s.updateCore now t c).1 =
      if (match s.getCurrent t with | none => true | some d => d.count != c) then
        ((if (match s.getCurrent t with | none => true | some d => d.count == 0)
              && decide (c > 0) then
            s.setHistory t
              (if (AppointmentData.make now t c :: s.getHistoryT t).length > s.maxHistory then
                (AppointmentData.make now t c :: s.getHistoryT t).take s.maxHistory
              else AppointmentData.make now t c :: s.getHistoryT t)
          else s).setCurrent t (some (AppointmentData.make now t c))).save
      else s := rfl

theorem getHistoryT_updateCore_self (s : AppointmentStore) (now : Nat) (t : SiteType)
    (c : Int) :
    ((s.updateCore now t c).1).getHistoryT t = s.getHistoryT t
    ∨ ((s.updateCore now t c).1).getHistoryT t =
        (if (AppointmentData.make now t c :: s.getHistoryT t).length > s.maxHistory then
          (AppointmentData.make now t c :: s.getHistoryT t).take s.maxHistory
        else AppointmentData.make now t c :: s.getHistoryT t) := by
  rw [updateCore_fst_eq]
  by_cases h1 : (match s.getCurrent t with | none => true | some d => d.count != c) = true
  · rw [if_pos h1, getHistoryT_save, getHistoryT_setCurrent]
    by_cases h2 : ((match s.getCurrent t with | none => true | some d => d.count == 0)
        && decide (c > 0)) = true
    · rw [if_pos h2, getHistoryT_setHistory_self]
      right
      rfl
    · rw [if_neg h2]
      left
      rfl
  · rw [if_neg h1]
    left
    rfl

theorem updateCore_history_length (s : AppointmentStore) (now : Nat) (t u : SiteType)
    (c : Int) (h : (s.getHistoryT t).length ≤ s.maxHistory) :
    (((s.updateCore now u c).1).getHistoryT t).length ≤ s.maxHistory := by
  rcases eq_or_ne t u with rfl | hne
  · rcases getHistoryT_updateCore_self s now t c with heq | heq
    · rw [heq]; exact h
    · rw [heq]
      split
      · simp only [List.length_take]
        exact Nat.min_le_left s.maxHistory _
      · next hlen =>
        have := Nat.le_of_not_lt (by simpa using hlen)
        simpa using this
  · rw [getHistoryT_updateCore_other s now t u c hne]
    exact h

theorem applyUpdates_maxHistory (us : List (Nat × SiteType × Int)) (s : AppointmentStore) :
    (applyUpdates s us).maxHistory = s.maxHistory := by
  induction us generalizing s with
  | nil => rfl
  | cons u rest ih =>
    obtain ⟨now, tu, c⟩ := u
    rw [applyUpdates, ih, maxHistory_updateCore]

theorem applyUpdates_history_le (us : List (Nat × SiteType × Int)) (s : AppointmentStore)
    (t : SiteType) (h : (s.getHistoryT t).length ≤ s.maxHistory) :
    ((applyUpdates s us).getHistoryT t).length ≤ s.maxHistory := by
  induction us generalizing s with
  | nil => exact h
  | cons u rest ih =>
    obtain ⟨now, tu, c⟩ := u
    rw [applyUpdates]
    have h1 := updateCore_history_length s now t tu c h
    have h2 := ih (s.updateCore now tu c).1 (by rw [maxHistory_updateCore]; exact h1)
    rw [maxHistory_updateCore] at h2
    exact h2

/-! ### Helper lemmas about the check cycle -/

theorem checkTarget_eq (s : AppointmentStore) (now : Nat) (t : SiteType) (c : Int) :
    checkTarget s now t c =
      if 0 ≤ c then ((s.updateCore now t c).1, (s.updateCore now t c).2.becameAvailable)
      else (s, false) := by
  unfold checkTarget
  rw [update_valid]

theorem checkTarget_sends_iff (s : AppointmentStore) (now : Nat) (t : SiteType) (c : Int) :
    (checkTarget s now t c).2 = true ↔ (0 < c ∧ knownCount s t = 0) := by
  rw [checkTarget_eq]
  split
  · next hc =>
    show (s.updateCore now t c).2.becameAvailable = true ↔ _
    rw [updateCore_becameAvailable]
    simp
  · next hc =>
    show false = true ↔ _
    constructor
    · intro h
      simp at h
    · rintro ⟨h1, _⟩
      exact absurd (le_of_lt h1) hc

theorem getCurrent_checkTarget_other (s : AppointmentStore) (now : Nat) (t u : SiteType)
    (c : Int) (h : t ≠ u) :
    ((checkTarget s now u c).1).getCurrent t = s.getCurrent t := by
  rw [checkTarget_eq]
  split
  · exact getCurrent_updateCore_other s now t u c h
  · rfl

theorem knownCount_checkTarget_nonzero (s : AppointmentStore) (now : Nat) (t : SiteType)
    (c : Int) (hc : c ≠ 0) (h : 0 < knownCount s t) :
    0 < knownCount ((checkTarget s now t c).1) t := by
  rw [checkTarget_eq]
  split
  · next hge =>
    rcases updateCore_store_cases s now t c with ⟨_, hcur⟩ | ⟨_, hst⟩
    · simp only []
      unfold knownCount
      rw [hcur]
      show (0 : Int) < c
      omega
    · simp only []
      rw [hst]
      exact h
  · exact h

theorem checkTarget_no_send_of_pos (s : AppointmentStore) (now : Nat) (t : SiteType)
    (c : Int) (h : 0 < knownCount s t) :
    (checkTarget s now t c).2 = false := by
  rw [Bool.eq_false_iff]
  intro hsend
  rcases (checkTarget_sends_iff s now t c).mp hsend with ⟨_, hzero⟩
  omega

theorem knownCount_runCheck_nonzero (s : AppointmentStore) (now : Nat) (t : SiteType)
    (rc mc : Int) (hc : targetFetch t ⟨now, rc, mc⟩ ≠ 0) (h : 0 < knownCount s t) :
    0 < knownCount ((runCheck s now rc mc).store) t := by
  cases t with
  | regular =>
    show 0 < knownCount ((checkTarget (checkTarget s now .regular rc).1 now .mobile mc).1) .regular
    rw [knownCount, getCurrent_checkTarget_other _ _ _ _ _ (by simp)]
    rw [← knownCount]
    exact knownCount_checkTarget_nonzero s now .regular rc hc h
  | mobile =>
    show 0 < knownCount ((checkTarget (checkTarget s now .regular rc).1 now .mobile mc).1) .mobile
    apply knownCount_checkTarget_nonzero _ now .mobile mc hc
    rw [knownCount, getCurrent_checkTarget_other _ _ _ _ _ (by simp), ← knownCount]
    exact h

theorem runCheck_no_send_of_pos (s : AppointmentStore) (now : Nat) (t : SiteType)
    (rc mc : Int) (h : 0 < knownCount s t) :
    (if t = .regular then (runCheck s now rc mc).notifiedRegular
     else (runCheck s now rc mc).notifiedMobile) = false := by
  cases t with
  | regular =>
    show (checkTarget s now .regular rc).2 = false
    exact checkTarget_no_send_of_pos s now .regular rc h
  | mobile =>
    show (checkTarget (checkTarget s now .regular rc).1 now .mobile mc).2 = false
    apply checkTarget_no_send_of_pos
    rw [knownCount, getCurrent_checkTarget_other _ _ _ _ _ (by simp), ← knownCount]
    exact h

theorem runChecks_no_sends (t : SiteType) (cycles : List CycleInput) (s : AppointmentStore)
    (h : 0 < knownCount s t) (hf : ∀ x ∈ cycles, targetFetch t x ≠ 0) :
    targetSends t (runChecks s cycles) = 0 := by
  induction cycles generalizing s with
  | nil => cases t <;> rfl
  | cons x rest ih =>
    have hx : targetFetch t x ≠ 0 := hf x (List.mem_cons_self x rest)
    have hrest : ∀ y ∈ rest, targetFetch t y ≠ 0 := fun y hy => hf y (List.mem_cons_of_mem x hy)
    have hpres : 0 < knownCount ((runCheck s x.now x.regularCount x.mobileCount).store) t :=
      knownCount_runCheck_nonzero s x.now t x.regularCount x.mobileCount hx h
    have hnos := runCheck_no_send_of_pos s x.now t x.regularCount x.mobileCount h
    have htail := ih _ hpres hrest
    cases t with
    | regular =>
      show (if (runCheck s x.now x.regularCount x.mobileCount).notifiedRegular then 1 else 0)
          + targetSends .regular (runChecks (runCheck s x.now x.regularCount x.mobileCount).store rest) = 0
      rw [if_neg (by simp at hnos; simp [hnos]), htail]
    | mobile =>
      show (if (runCheck s x.now x.regularCount x.mobileCount).notifiedMobile then 1 else 0)
          + targetSends .mobile (runChecks (runCheck s x.now x.regularCount x.mobileCount).store rest) = 0
      rw [if_neg (by simp at hnos; simp [hnos]), htail]

/-! ### Helper lemmas about the extractor and the notifier -/

theorem tryStrategies_eq_find (root : HNode) (l : List Strategy) :
    tryStrategies root l =
      (l.find? (fun st => (runStrategy root st).1)).map (fun st => (runStrategy root st).2) := by
  induction l with
  | nil => rfl
  | cons st rest ih =>
    rw [tryStrategies, List.find?_cons]
    by_cases h : (runStrategy root st).1 = true
    · rw [h]
      simp
    · rw [Bool.not_eq_true] at h
      rw [h]
      simpa using ih

theorem sendAttempts_iff (oracle : Nat → Bool) (fuel i : Nat) :
    sendAttempts oracle fuel i = true ↔ ∃ j, j < fuel ∧ oracle (i + j) = true := by
  induction fuel generalizing i with
  | zero =>
    constructor
    · intro h
      simp [sendAttempts] at h
    · rintro ⟨j, hj, _⟩
      omega
  | succ fuel ih =>
    rw [sendAttempts]
    by_cases h : oracle i = true
    · rw [h]
      simp only [if_true]
      constructor
      · intro _
        exact ⟨0, Nat.succ_pos fuel, by simpa using h⟩
      · intro _
        trivial
    · rw [Bool.not_eq_true] at h
      rw [h]
      simp only [Bool.false_eq_true, if_false]
      rw [ih (i + 1)]
      constructor
      · rintro ⟨j, hj, ho⟩
        exact ⟨j + 1, by omega, by rw [show i + (j + 1) = i + 1 + j by omega]; exact ho⟩
      · rintro ⟨j, hj, ho⟩
        cases j with
        | zero => rw [Nat.add_zero] at ho; rw [ho] at h; cases h
        | succ j => exact ⟨j, by omega, by rw [show i + 1 + j = i + (j + 1) by omega]; exact ho⟩

theorem currentNonneg_getCurrent (s : AppointmentStore) (h : currentNonneg s = true)
    (t : SiteType) (d : AppointmentData) (hd : s.getCurrent t = some d) : 0 ≤ d.count := by
  unfold currentNonneg at h
  rw [Bool.and_eq_true] at h
  cases t with
  | regular =>
    have h1 := h.1
    rw [show s.getCurrent .regular = s.currentRegular from rfl] at hd
    rw [hd] at h1
    simpa using h1
  | mobile =>
    have h1 := h.2
    rw [show s.getCurrent .mobile = s.currentMobile from rfl] at hd
    rw [hd] at h1
    simpa using h1

theorem currentNonneg_intro (s : AppointmentStore)
    (h : ∀ t d, s.getCurrent t = some d → 0 ≤ d.count) : currentNonneg s = true := by
  unfold currentNonneg
  rw [Bool.and_eq_true]
  constructor
  · cases hc : s.currentRegular with
    | none => rfl
    | some d =>
      simpa using h .regular d (by rw [show s.getCurrent .regular = s.currentRegular from rfl, hc])
  · cases hc : s.currentMobile with
    | none => rfl
    | some d =>
      simpa using h .mobile d (by rw [show s.getCurrent .mobile = s.currentMobile from rfl, hc])

theorem currentNonneg_checkTarget (s : AppointmentStore) (now : Nat) (t : SiteType)
    (c : Int) (h : currentNonneg s = true) :
    currentNonneg ((checkTarget s now t c).1) = true := by
  rw [checkTarget_eq]
  split
  · next hc =>
    apply currentNonneg_intro
    intro u d hd
    rcases eq_or_ne u t with rfl | hne
    · rcases updateCore_store_cases s now u c with ⟨_, hcur⟩ | ⟨_, hst⟩
      · rw [hcur] at hd
        cases hd
        exact hc
      · rw [hst] at hd
        exact currentNonneg_getCurrent s h u d hd
    · rw [getCurrent_updateCore_other s now u t c hne] at hd
      exact currentNonneg_getCurrent s h u d hd
  · exact h

/-! ### Claim theorems -/

/-- C10: for every type string other than `regular` and `mobile` and every
count, `update` throws `Invalid appointment type: ...`. The validation is
the first statement of the method, before `newData` is created or any field
is touched, so CurrentState, History and the persisted file for both valid
targets are left unchanged. -/
theorem update_invalid_type_throws (s : AppointmentStore) (now : Nat) (ty : String)
    (c : Int) (h1 : ty ≠ "regular") (h2 : ty ≠ "mobile") :
    s.update now ty c = .error ("Invalid appointment type: " ++ ty) := by
  unfold AppointmentStore.update
  rw [if_pos ⟨h1, h2⟩]

theorem update_invalid_type_throws_witness :
    emptyStore.update 0 "walkin" 3 = .error ("Invalid appointment type: " ++ "walkin") :=
  update_invalid_type_throws emptyStore 0 "walkin" 3 (by decide) (by decide)

/-- C8: for every attempt `k` and drawn jitters in `[0, 1000)`, the backoff
delay equals `min(2000 * 2 ^ k + jitter, 60000)` milliseconds, lies within
`[base * 2 ^ k, base * 2 ^ k + 1000]` capped at 60000, and is non-decreasing
in `k` up to the cap regardless of the jitter drawn at each attempt. -/
theorem calculateBackoff_bounds (k : Nat) (j j' : ℚ)
    (hj0 : 0 ≤ j) (hj1 : j < 1000) (hj'0 : 0 ≤ j') (_hj'1 : j' < 1000) :
    calculateBackoff k j = min (2000 * 2 ^ k + j) 60000
    ∧ min (2000 * 2 ^ k) 60000 ≤ calculateBackoff k j
    ∧ calculateBackoff k j ≤ min (2000 * 2 ^ k + 1000) 60000
    ∧ calculateBackoff k j ≤ calculateBackoff (k + 1) j' := by
  have hpow : (1 : ℚ) ≤ 2 ^ k := by
    calc (1 : ℚ) = 2 ^ (0 : Nat) := by norm_num
    _ ≤ 2 ^ k := by
      apply pow_le_pow_right₀ (by norm_num) (Nat.zero_le k)
  refine ⟨rfl, min_le_min (by linarith) le_rfl, min_le_min (by linarith) le_rfl, ?_⟩
  unfold calculateBackoff
  apply min_le_min _ le_rfl
  rw [pow_succ]
  nlinarith [hpow]

theorem calculateBackoff_bounds_witness :
    calculateBackoff 0 0 = min (2000 * 2 ^ 0 + 0) 60000
    ∧ min ((2000 : ℚ) * 2 ^ 0) 60000 ≤ calculateBackoff 0 0
    ∧ calculateBackoff 0 0 ≤ min (2000 * 2 ^ 0 + 1000) 60000
    ∧ calculateBackoff 0 0 ≤ calculateBackoff 1 500 :=
  calculateBackoff_bounds 0 0 500 (by norm_num) (by norm_num) (by norm_num) (by norm_num)

/-- C9: the notifier's send never raises to its caller: it is a total
boolean-valued operation in this model because the source catches every
delivery error inside the retry loop. It returns false when the transporter
is not configured (no valid email settings), returns false when every
attempt `0..maxRetries` fails, and returns true only when the transporter is
configured and some attempt within the retry budget succeeds. -/
theorem sendNotification_contract (c : NotifierConfig) (t : SiteType) (count : Int)
    (oracle : Nat → Bool) :
    (c.hasValidEmailSettings = false → (sendNotificationModel c t count oracle).1 = false)
    ∧ ((∀ i, i ≤ c.maxRetries → oracle i = false) →
        (sendNotificationModel c t count oracle).1 = false)
    ∧ ((sendNotificationModel c t count oracle).1 = true →
        c.hasValidEmailSettings = true ∧ ∃ i, i ≤ c.maxRetries ∧ oracle i = true) := by
  unfold sendNotificationModel
  refine ⟨?_, ?_, ?_⟩
  · intro h
    rw [if_pos h]
  · intro h
    by_cases h1 : c.hasValidEmailSettings = false
    · rw [if_pos h1]
    · rw [if_neg h1]
      by_cases h2 : c.notificationUrl t = ""
      · rw [if_pos h2]
      · rw [if_neg h2]
        show sendAttempts oracle (c.maxRetries + 1) 0 = false
        rw [Bool.eq_false_iff]
        intro hs
        rcases (sendAttempts_iff oracle _ 0).mp hs with ⟨jj, hj, ho⟩
        rw [Nat.zero_add] at ho
        rw [h jj (by omega)] at ho
        cases ho
  · intro h
    by_cases h1 : c.hasValidEmailSettings = false
    · rw [if_pos h1] at h
      cases h
    · rw [if_neg h1] at h
      by_cases h2 : c.notificationUrl t = ""
      · rw [if_pos h2] at h
        cases h
      · rw [if_neg h2] at h
        have hb : c.hasValidEmailSettings = true := by
          cases hv : c.hasValidEmailSettings
          · exact absurd hv h1
          · rfl
        refine ⟨hb, ?_⟩
        rcases (sendAttempts_iff oracle (c.maxRetries + 1) 0).mp h with ⟨jj, hj, ho⟩
        rw [Nat.zero_add] at ho
        exact ⟨jj, by omega, ho⟩

theorem sendNotification_contract_witness :
    (sendNotificationModel cfgNoCreds .regular 5 (fun _ => false)).1 = false
    ∧ (sendNotificationModel cfgExample .regular 5 (fun _ => false)).1 = false :=
  ⟨(sendNotification_contract cfgNoCreds .regular 5 (fun _ => false)).1 (by decide),
   (sendNotification_contract cfgExample .regular 5 (fun _ => false)).2.1 (fun _ _ => rfl)⟩

/-- C2 counterexample: on a fresh store (no CurrentState) an update with
count 0 returns `hasChanged = true`, although the claimed formula
`changed == (c != p.count)` with the missing state treated as count 0 gives
`0 != 0`, i.e. false. -/
theorem update_first_observation_counterexample :
    emptyStore.update 0 "regular" 0 =
      .ok ({ emptyStore with
              currentRegular := some (AppointmentData.make 0 .regular 0)
              stored := some (some (AppointmentData.make 0 .regular 0), none, [], []) },
           { type := "regular", count := 0, previousCount := 0, hasChanged := true,
             becameAvailable := false, timestamp := 0 })
    ∧ ¬ ((0 : Int) ≠ knownCount emptyStore .regular) := by
  exact ⟨rfl, by decide⟩

/-- C2 (amended): for every count `c ≥ 0` and target, `update` succeeds and
returns `becameAvailable == (p.count == 0 && c > 0)` (with a missing
CurrentState read as count 0) and `previousCount` equal to the last known
count; `changed` equals `c != p.count` whenever a CurrentState exists, but
on the very first observation (no CurrentState) `changed` is always true,
even when `c == 0`. -/
theorem update_transition_fields (s : AppointmentStore) (now : Nat) (t : SiteType)
    (c : Int) (_hc : 0 ≤ c) :
    s.update now t.toType c = .ok (s.updateCore now t c)
    ∧ (s.updateCore now t c).2.becameAvailable
        = (decide (knownCount s t = 0) && decide (0 < c))
    ∧ (s.updateCore now t c).2.hasChanged
        = (match s.getCurrent t with
           | none => true
           | some d => decide (c ≠ d.count))
    ∧ (s.updateCore now t c).2.previousCount = knownCount s t := by
  refine ⟨update_valid s now t c, ?_, ?_, updateCore_previousCount s now t c⟩
  · rw [updateCore_becameAvailable, Bool.and_comm]
  · rw [updateCore_hasChanged]
    cases s.getCurrent t with
    | none => rfl
    | some d =>
      show (d.count != c) = decide (c ≠ d.count)
      rw [Bool.eq_iff_iff]
      simp only [bne_iff_ne, decide_eq_true_eq]
      exact ne_comm

theorem update_transition_fields_witness :
    storeAtSeven.update 3 SiteType.regular.toType 7 = .ok (storeAtSeven.updateCore 3 .regular 7)
    ∧ (storeAtSeven.updateCore 3 .regular 7).2.becameAvailable
        = (decide (knownCount storeAtSeven .regular = 0) && decide ((0 : Int) < 7))
    ∧ (storeAtSeven.updateCore 3 .regular 7).2.hasChanged
        = (match storeAtSeven.getCurrent .regular with
           | none => true
           | some d => decide ((7 : Int) ≠ d.count))
    ∧ (storeAtSeven.updateCore 3 .regular 7).2.previousCount = knownCount storeAtSeven .regular :=
  update_transition_fields storeAtSeven 3 .regular 7 (by norm_num)

/-- C3 counterexample: `update` applies no sentinel check of its own.
Calling it directly with the sentinel `-1` while the regular target's last
known count is 5 reports `hasChanged = true`, overwrites CurrentState with a
`-1` record, and persists that state, contradicting the claimed no-op. -/
theorem update_sentinel_counterexample :
    storeAtFive.update 9 "regular" (-1) =
      .ok ({ storeAtFive with
              currentRegular := some (AppointmentData.make 9 .regular (-1))
              stored := some (some (AppointmentData.make 9 .regular (-1)), none, [], []) },
           { type := "regular", count := -1, previousCount := 5, hasChanged := true,
             becameAvailable := false, timestamp := 9 }) := rfl

/-- C3 (amended): the sentinel never reaches `update` through the check
cycle: `runCheck` guards every target with `count >= 0`, so for a negative
scraper result the cycle leaves the store (CurrentState, History and the
persisted snapshot) exactly unchanged and attempts no notification, and a
full cycle preserves non-negativity of all stored counts. The no-op
guarantee for unknown reads is the orchestrator's guard, not `update`'s. -/
theorem runCheck_filters_sentinel (s : AppointmentStore) (now : Nat) (t : SiteType)
    (c rc mc : Int) :
    (c < 0 → checkTarget s now t c = (s, false))
    ∧ (currentNonneg s = true → currentNonneg ((runCheck s now rc mc).store) = true) := by
  constructor
  · intro h
    rw [checkTarget_eq, if_neg (by omega)]
  · intro h
    exact currentNonneg_checkTarget _ _ _ _ (currentNonneg_checkTarget _ _ _ _ h)

theorem runCheck_filters_sentinel_witness :
    checkTarget storeAtFive 2 .regular (-1) = (storeAtFive, false)
    ∧ currentNonneg ((runCheck storeAtFive 2 3 (-1)).store) = true :=
  ⟨(runCheck_filters_sentinel storeAtFive 2 .regular (-1) 3 (-1)).1 (by norm_num),
   (runCheck_filters_sentinel storeAtFive 2 .regular (-1) 3 (-1)).2 (by decide)⟩

/-- C6 counterexample: when the observed count equals the previous known
count, `update` does not overwrite CurrentState: at clock value 9 the
regular record observed at clock value 5 with count 7 is left in place, with
its stale timestamp, and nothing is saved. -/
theorem update_same_count_counterexample :
    storeAtSeven.update 9 "regular" 7 =
      .ok (storeAtSeven,
           { type := "regular", count := 7, previousCount := 7, hasChanged := false,
             becameAvailable := false, timestamp := 9 })
    ∧ storeAtSeven.currentRegular = some (AppointmentData.make 5 .regular 7)
    ∧ (AppointmentData.make 5 SiteType.regular 7).timestamp = 5 := by
  exact ⟨rfl, rfl, rfl⟩

/-- C6 (amended): for a known (non-sentinel) count, `update` overwrites
CurrentState with a new record carrying count `c` and the fresh timestamp
exactly when the count differs from the previous known count (or no record
exists yet); when `c` equals the previous count the entire store, CurrentState
included, is left unchanged, so the timestamp is not refreshed. CurrentState
is also retained on fetch/parse failure, since `runCheck` then skips
`update` entirely. -/
theorem update_overwrite_iff_changed (s : AppointmentStore) (now : Nat) (t : SiteType)
    (c : Int) (_hc : 0 ≤ c) :
    s.update now t.toType c = .ok (s.updateCore now t c)
    ∧ ((s.updateCore now t c).2.hasChanged = true →
        ((s.updateCore now t c).1).getCurrent t = some (AppointmentData.make now t c))
    ∧ ((s.updateCore now t c).2.hasChanged = false → (s.updateCore now t c).1 = s)
    ∧ (s.updateCore now t c).2.hasChanged
        = (match s.getCurrent t with
           | none => true
           | some d => decide (c ≠ d.count)) := by
  refine ⟨update_valid s now t c, ?_, ?_, ?_⟩
  · intro h
    rcases updateCore_store_cases s now t c with ⟨_, hcur⟩ | ⟨hf, _⟩
    · exact hcur
    · rw [h] at hf
      cases hf
  · intro h
    rcases updateCore_store_cases s now t c with ⟨ht', _⟩ | ⟨_, hs⟩
    · rw [h] at ht'
      cases ht'
    · exact hs
  · rw [updateCore_hasChanged]
    cases s.getCurrent t with
    | none => rfl
    | some d =>
      show (d.count != c) = decide (c ≠ d.count)
      rw [Bool.eq_iff_iff]
      simp only [bne_iff_ne, decide_eq_true_eq]
      exact ne_comm

theorem update_overwrite_iff_changed_witness :
    storeAtFive.update 2 SiteType.regular.toType 9 = .ok (storeAtFive.updateCore 2 .regular 9)
    ∧ ((storeAtFive.updateCore 2 .regular 9).2.hasChanged = true →
        ((storeAtFive.updateCore 2 .regular 9).1).getCurrent .regular
          = some (AppointmentData.make 2 .regular 9))
    ∧ ((storeAtFive.updateCore 2 .regular 9).2.hasChanged = false →
        (storeAtFive.updateCore 2 .regular 9).1 = storeAtFive)
    ∧ (storeAtFive.updateCore 2 .regular 9).2.hasChanged
        = (match storeAtFive.getCurrent .regular with
           | none => true
           | some d => decide ((9 : Int) ≠ d.count)) :=
  update_overwrite_iff_changed storeAtFive 2 .regular 9 (by norm_num)

/-- C7: after any sequence of update calls the History list of any target
never exceeds `maxHistory` (given it started within the cap); when an entry
is appended on a 0-to-positive transition the new History is the newest-first
list truncated to `maxHistory`, so the oldest entries (the tail) are evicted
first; and the count sequence 0, 5, 0, 3 on one target from an empty store
yields exactly two history entries, for the 3 and the 5 (newest first). -/
theorem history_cap_and_scenario :
    (∀ (us : List (Nat × SiteType × Int)) (s : AppointmentStore) (t : SiteType),
        (s.getHistoryT t).length ≤ s.maxHistory →
        ((applyUpdates s us).getHistoryT t).length ≤ s.maxHistory)
    ∧ (∀ (s : AppointmentStore) (now : Nat) (t : SiteType) (c : Int),
        knownCount s t = 0 → 0 < c →
        ((s.updateCore now t c).1).getHistoryT t =
          (AppointmentData.make now t c :: s.getHistoryT t).take s.maxHistory)
    ∧ (applyUpdates emptyStore
         [(1, .regular, 0), (2, .regular, 5), (3, .regular, 0), (4, .regular, 3)]).historyRegular
        = [AppointmentData.make 4 .regular 3, AppointmentData.make 2 .regular 5] := by
  refine ⟨fun us s t h => applyUpdates_history_le us s t h, ?_, rfl⟩
  intro s now t c h0 hcpos
  have hch : (match s.getCurrent t with | none => true | some d => d.count != c) = true := by
    cases hg : s.getCurrent t with
    | none => rfl
    | some d =>
      have h0' : d.count = 0 := by
        unfold knownCount at h0
        rw [hg] at h0
        exact h0
      show (d.count != c) = true
      simp only [bne_iff_ne]
      omega
  have hz : ((match s.getCurrent t with | none => true | some d => d.count == 0)
      && decide (c > 0)) = true := by
    rw [Bool.and_eq_true]
    refine ⟨?_, by simpa using hcpos⟩
    cases hg : s.getCurrent t with
    | none => rfl
    | some d =>
      have h0' : d.count = 0 := by
        unfold knownCount at h0
        rw [hg] at h0
        exact h0
      show (d.count == 0) = true
      simpa using h0'
  rw [updateCore_fst_eq, if_pos hch, getHistoryT_save, getHistoryT_setCurrent, if_pos hz,
    getHistoryT_setHistory_self]
  split
  · rfl
  · next hlen =>
    rw [List.take_of_length_le (Nat.le_of_not_lt (by simpa using hlen))]

theorem history_cap_and_scenario_witness :
    ((applyUpdates emptyStore [(1, .regular, 5)]).getHistoryT .regular).length
        ≤ emptyStore.maxHistory
    ∧ ((emptyStore.updateCore 2 .mobile 3).1).getHistoryT .mobile =
        (AppointmentData.make 2 .mobile 3 :: emptyStore.getHistoryT .mobile).take
          emptyStore.maxHistory :=
  ⟨history_cap_and_scenario.1 [(1, .regular, 5)] emptyStore .regular (by decide),
   history_cap_and_scenario.2.1 emptyStore 2 .mobile 3 (by decide) (by decide)⟩

/-- C1: per cycle and target, a notification send is attempted exactly when
the fetched count is positive and the last known count was 0 (or no state
existed); two consecutive successful checks with the same positive count
send nothing on the second and leave History (indeed the whole store)
unchanged; and once the known count is positive, no further send happens
over any sequence of cycles in which that target's fetch result never
returns to 0 (failures included). The final conjunct ties the per-target
step to `runCheck` itself. -/
theorem runCheck_once_per_transition (s : AppointmentStore) (now now' : Nat)
    (t : SiteType) (c rc mc : Int) :
    ((checkTarget s now t c).2 = true ↔ 0 < c ∧ knownCount s t = 0)
    ∧ (0 < c →
        (checkTarget (checkTarget s now t c).1 now' t c).2 = false
        ∧ ((checkTarget (checkTarget s now t c).1 now' t c).1).getHistoryT t
            = ((checkTarget s now t c).1).getHistoryT t)
    ∧ (∀ cycles : List CycleInput, 0 < knownCount s t →
        (∀ x ∈ cycles, targetFetch t x ≠ 0) → targetSends t (runChecks s cycles) = 0)
    ∧ ((runCheck s now rc mc).notifiedRegular = (checkTarget s now .regular rc).2
        ∧ (runCheck s now rc mc).notifiedMobile
            = (checkTarget (checkTarget s now .regular rc).1 now .mobile mc).2) := by
  refine ⟨checkTarget_sends_iff s now t c, ?_,
    fun cycles h hf => runChecks_no_sends t cycles s h hf, rfl, rfl⟩
  intro hc
  have hcur : ∃ d, ((checkTarget s now t c).1).getCurrent t = some d ∧ d.count = c := by
    rw [checkTarget_eq, if_pos (le_of_lt hc)]
    rcases updateCore_store_cases s now t c with ⟨_, h1⟩ | ⟨hf, h1⟩
    · exact ⟨_, h1, rfl⟩
    · rw [h1]
      rw [updateCore_hasChanged] at hf
      cases hg : s.getCurrent t with
      | none =>
        rw [hg] at hf
        cases hf
      | some d =>
        rw [hg] at hf
        refine ⟨d, rfl, ?_⟩
        have hbne : (d.count != c) = false := hf
        simpa using hbne
  rcases hcur with ⟨d, hd, hdc⟩
  have hsecond :
      checkTarget ((checkTarget s now t c).1) now' t c = ((checkTarget s now t c).1, false) := by
    rw [checkTarget_eq, if_pos (le_of_lt hc)]
    have hch : ((((checkTarget s now t c).1).updateCore now' t c).2.hasChanged) = false := by
      rw [updateCore_hasChanged, hd]
      simpa using hdc
    rcases updateCore_store_cases ((checkTarget s now t c).1) now' t c with ⟨ht', _⟩ | ⟨_, hst⟩
    · rw [hch] at ht'
      cases ht'
    · rw [hst]
      have hkc : knownCount ((checkTarget s now t c).1) t = c := by
        unfold knownCount
        rw [hd]
        exact hdc
      have hav := updateCore_becameAvailable ((checkTarget s now t c).1) now' t c
      rw [hkc] at hav
      have hne : ¬ (c = 0) := by omega
      rw [hav]
      simp [hne]
  rw [hsecond]
  exact ⟨rfl, rfl⟩

theorem runCheck_once_per_transition_witness :
    ((checkTarget emptyStore 1 .regular 4).2 = true ↔
      (0 : Int) < 4 ∧ knownCount emptyStore .regular = 0)
    ∧ targetSends .regular (runChecks storeAtSeven [⟨1, 7, -1⟩]) = 0 :=
  ⟨(runCheck_once_per_transition emptyStore 1 1 .regular 4 4 0).1,
   (runCheck_once_per_transition storeAtSeven 1 1 .regular 7 7 0).2.2.1 [⟨1, 7, -1⟩]
     (by decide) (by decide)⟩

/-- C4 counterexample: markup on which the primary strategy finds the exact
`REAL ID` title but the located count element's text, `N/A`, contains no
integer. The claim requires the unknown sentinel `-1` plus a saved debug
artifact; the extractor instead returns 0 with no artifact, because a
strategy wins as soon as its title is found, keeping the initial count 0
when nothing parses. -/
theorem extract_unparsable_counterexample :
    ((strategiesFor .regular).map (fun st => (runStrategy unparsableDoc st).1)) = [true, false, false]
    ∧ firstInteger (trimCL "N/A".data) = none
    ∧ extractAppointmentCount unparsableDoc .regular = ⟨0, false⟩ := by
  exact ⟨by decide, by decide, by decide⟩

/-- C4 (amended): the selector strategies are tried in their fixed order and
the first strategy that finds the target's exact title text wins: the result
is then the integer parsed from its count text, or 0 (with no debug
artifact) when no count element is found or no integer parses. Only when no
selector strategy finds the title does the generic text scan run, and only
when that also fails is the result the sentinel `-1` with a debug artifact
saved (filename keyed by target, reason `parse-failed`, and timestamp). -/
theorem extract_fallback_spec (d : HNode) (t : SiteType) :
    extractAppointmentCount d t =
      match (strategiesFor t).find? (fun st => (runStrategy d st).1) with
      | some st => ⟨((runStrategy d st).2 : Int), false⟩
      | none =>
        match genericScan d (searchTextFor t) with
        | some c => ⟨(c : Int), false⟩
        | none => ⟨-1, true⟩ := by
  unfold extractAppointmentCount
  rw [tryStrategies_eq_find]
  cases hf : (strategiesFor t).find? (fun st => (runStrategy d st).1) with
  | some st => rfl
  | none => rfl

/-- C5: the notification built for a 0-to-positive transition to count 4.
The check cycle attempts exactly one notification for the transition, and
both message bodies contain the literal count `4` and the target's
configured notification URL; but the two messages differ and are addressed
to the hardcoded `7329957580@vtext.com` and `adamb.capuana@gmail.com`, not
to the configured `TRACKER_EMAIL_RECIPIENT` (`user@example.com` here), which
`sendNotification` never reads. -/
theorem notification_hardcoded_recipients :
    (checkTarget { emptyStore with
        currentRegular := some (AppointmentData.make 0 .regular 0) } 1 .regular 4).2 = true
    ∧ (sendNotificationModel cfgExample .regular 4 (fun _ => true)).1 = true
    ∧ (sendNotificationModel cfgExample .regular 4 (fun _ => true)).2.map Mail.toAddr
        = ["7329957580@vtext.com", "adamb.capuana@gmail.com"]
    ∧ cfgExample.recipient = "user@example.com"
    ∧ ((sendNotificationModel cfgExample .regular 4 (fun _ => true)).2.map
        Mail.toAddr).contains "user@example.com" = false
    ∧ (sendNotificationModel cfgExample .regular 4 (fun _ => true)).2.all
        (fun m => containsCL m.body.data "4".data
          && containsCL m.body.data cfgExample.regularNotificationUrl.data) = true
    ∧ ((sendNotificationModel cfgExample .regular 4 (fun _ => true)).2.map Mail.body).Nodup := by
  refine ⟨by decide, by decide, by decide, rfl, by decide, by decide, by decide⟩

end TrackRealID
